import Mathlib

/-!
Verification development for `reddit_content_remover.py`, a single-file
interactive tool that authenticates a Reddit user through OAuth2 and bulk
deletes the user's posts and comments.

The embedding is shallow: each Python function is translated into a pure
Lean function.  External effects (the incoming HTTP request, the
environment, console input, exceptions raised by the Reddit API, the user
pressing Ctrl-C) become explicit parameters, and the observable outcome of
a run (the returned tallies, the delete calls issued, the sleeps performed,
how the process exits) becomes the function's result.  String operations
are re-implemented on `List Char` with structural recursion so that every
definition evaluates inside the kernel.
-/

namespace RedditContentRemover

/-! ## Query-string parsing

`do_GET` calls `parse_qs(urlparse(self.path).query)`.  We embed the parts of
`urllib.parse` this exercises.  `urlparse` separates the fragment (after the
first `#`) and then takes the query as everything after the first `?` of the
remainder.  `parse_qsl` splits the query at `&`, splits each field at its
first `=`, skips empty fields, fields without `=` and fields with a blank
value (the defaults `keep_blank_values=False`, `strict_parsing=False`), and
percent-decodes names and values with `+` mapped to a space.  The percent
decoding here covers single-byte (ASCII) escapes, which is exact for every
input whose escapes are ASCII; multi-byte UTF-8 escape sequences do not
occur in the claims. -/

/-- The part of a character list before the first occurrence of `sep`,
together with the part after it (`none` when `sep` does not occur). -/
def breakAtFirst (sep : Char) : List Char → List Char × Option (List Char)
  | [] => ([], none)
  | c :: rest =>
    if c = sep then ([], some rest)
    else
      let p := breakAtFirst sep rest
      (c :: p.1, p.2)

/-- `str.split(sep)` for a one-character separator: the groups between the
occurrences of `sep`, empty groups included. -/
def splitOnChar (sep : Char) : List Char → List (List Char)
  | [] => [[]]
  | c :: rest =>
    let r := splitOnChar sep rest
    if c = sep then [] :: r
    else match r with
      | [] => [[c]]
      | g :: gs => (c :: g) :: gs

/-- The value of a hex digit, as used by percent-decoding. -/
def hexDigitVal (c : Char) : Option Nat :=
  if '0' ≤ c ∧ c ≤ '9' then some (c.toNat - '0'.toNat)
  else if 'a' ≤ c ∧ c ≤ 'f' then some (c.toNat - 'a'.toNat + 10)
  else if 'A' ≤ c ∧ c ≤ 'F' then some (c.toNat - 'A'.toNat + 10)
  else none

/-- `unquote_plus` on the character list: `+` becomes a space and `%XY`
with two hex digits becomes the character with code `16*X + Y`; a `%` not
followed by two hex digits is kept as is. -/
def unquotePlusChars : List Char → List Char
  | [] => []
  | '+' :: rest => ' ' :: unquotePlusChars rest
  | '%' :: c1 :: c2 :: rest =>
    match hexDigitVal c1, hexDigitVal c2 with
    | some h1, some h2 => Char.ofNat (16 * h1 + h2) :: unquotePlusChars rest
    | _, _ => '%' :: unquotePlusChars (c1 :: c2 :: rest)
  | c :: rest => c :: unquotePlusChars rest

/-- `urlparse(path).query`: drop the fragment (everything from the first
`#` on), then take everything after the first `?`; empty when there is no
`?`. -/
def urlQuery (path : String) : List Char :=
  let noFrag := (breakAtFirst '#' path.data).1
  (breakAtFirst '?' noFrag).2.getD []

/-- `urllib.parse.parse_qsl` with the default options: the name/value pairs
of the query in order of occurrence. -/
def parse_qsl (query : List Char) : List (String × String) :=
  (splitOnChar '&' query).filterMap fun field =>
    if field = [] then none
    else match (breakAtFirst '=' field).2 with
      | none => none
      | some value =>
        if value = [] then none
        else some (String.mk (unquotePlusChars (breakAtFirst '=' field).1),
                   String.mk (unquotePlusChars value))

/-- The list `parse_qs(query)[key]` of the `parse_qs` dictionary: all
values bound to `key` in occurrence order.  `key in parse_qs(query)` is
this list being nonempty, and `parse_qs(query)[key][0]` is its head. -/
def parse_qs_values (query : List Char) (key : String) : List String :=
  ((parse_qsl query).filter fun p => p.1 = key).map Prod.snd

/-! ## Python string helpers used by `main`

`str.strip()` removes leading and trailing whitespace and `str.lower()`
lowercases; the embeddings below are exact on ASCII, which covers every
string the claims mention. -/

/-- `s.strip()`. -/
def pyStrip (s : String) : String :=
  String.mk (((s.data.dropWhile Char.isWhitespace).reverse.dropWhile
    Char.isWhitespace).reverse)

/-- `s.lower()`. -/
def pyLower (s : String) : String :=
  String.mk (s.data.map Char.toLower)

/-- Python truthiness of an optional string, as used by
`if not os.getenv(var)` and `if not oauth_code`: `None` and the empty
string are falsy, every other string is truthy. -/
def pyTruthy : Option String → Bool
  | none => false
  | some s => s ≠ ""

/-! ## `OAuthHandler.do_GET` and `get_oauth_code`

`do_GET` first sends status 200 with an HTML content-type header and only
then enters a `try` block that parses the query string of the request path:
if a `code` parameter is present its first value is stored in
`server.oauth_code` and a success page is written, otherwise a failure page
is written.  Parsing is total, so the only statement of the `try` block that
can raise is the response-body write (for example when the browser has
already closed the connection); the `except` branch logs the error and
writes a short plain-text error message instead.  The flag `writeOk` below
injects that failure: `false` means the page write of the taken branch
raised.  Note that when a `code` is present it is stored *before* the write,
so the stored code survives a write failure. -/

/-- The three response bodies `do_GET` can write. -/
inductive ResponseBody
  | successPage
  | failurePage
  | errorText
  deriving DecidableEq, Repr

/-- The observable outcome of handling one request. -/
structure HandlerResult where
  status : Nat
  oauth_code : Option String
  body : ResponseBody
  deriving DecidableEq, Repr

/-- `OAuthHandler.do_GET`, embedding of lines 13-44 of the source. -/
def do_GET (path : String) (writeOk : Bool) : HandlerResult :=
  match parse_qs_values (urlQuery path) "code", writeOk with
  | v :: _, true => { status := 200, oauth_code := some v, body := .successPage }
  | v :: _, false => { status := 200, oauth_code := some v, body := .errorText }
  | [], true => { status := 200, oauth_code := none, body := .failurePage }
  | [], false => { status := 200, oauth_code := none, body := .errorText }

/-- The observable outcome of one run of `get_oauth_code`'s local server. -/
structure ServerRun where
  oauth_code : Option String
  responsesSent : List HandlerResult
  closed : Bool
  deriving DecidableEq, Repr

/-- `get_oauth_code`, embedding of lines 62-75 of the source: the server
starts with `oauth_code = None`, `handle_request()` serves exactly the
first incoming request, and the server is closed in the `finally` block,
so any later request in the list is never served.  With no incoming
request at all the call blocks forever; that case is modelled as an idle
server that has sent nothing and never returns. -/
def get_oauth_code (requests : List String) (writeOk : Bool) : ServerRun :=
  match requests with
  | [] => { oauth_code := none, responsesSent := [], closed := false }
  | r :: _ =>
    let res := do_GET r writeOk
    { oauth_code := res.oauth_code, responsesSent := [res], closed := true }

/-! ## `validate_env_vars` and `setup_reddit` -/

/-- The required environment variables, line 52 of the source. -/
def required_vars : List String :=
  ["REDDIT_CLIENT_ID", "REDDIT_CLIENT_SECRET", "REDDIT_USER_AGENT"]

/-- `missing_vars = [var for var in required_vars if not os.getenv(var)]`.
The environment is a map from names to an optional value; a variable set
to the empty string is falsy exactly like an unset one. -/
def missing_vars (env : String → Option String) : List String :=
  required_vars.filter fun v => !pyTruthy (env v)

/-- How `validate_env_vars` returns: normally, or via `sys.exit(1)` after
printing the missing names. -/
inductive ValidateResult
  | ok
  | exitWith (code : Nat) (missing : List String)
  deriving DecidableEq, Repr

/-- `validate_env_vars`, embedding of lines 50-60 of the source. -/
def validate_env_vars (env : String → Option String) : ValidateResult :=
  let missing := missing_vars env
  if missing = [] then .ok else .exitWith 1 missing

/-- The successive steps of `setup_reddit`, in program order.  Only the
token exchange (`reddit.auth.authorize`) contacts the platform:
constructing the `praw.Reddit` client, building the authorization URL and
opening the browser are local, and waiting for the callback only accepts an
inbound local connection. -/
inductive SetupStep
  | loadDotenv
  | envValidation
  | clientInit
  | buildAuthUrl
  | openBrowser
  | waitCallback
  | tokenExchange
  deriving DecidableEq, Repr

/-- Whether a step performs an outbound network call. -/
def isNetworkStep : SetupStep → Bool
  | .tokenExchange => true
  | _ => false

/-- How `setup_reddit` ends: `sys.exit` raised by `validate_env_vars`, an
`Exception` (no authorization code obtained, or the token exchange
failed), or an authenticated session. -/
inductive SetupOutcome
  | configExit (code : Nat) (missing : List String)
  | authFailed
  | ok
  deriving DecidableEq, Repr

/-- `setup_reddit`, embedding of lines 77-123 of the source: load the
environment, validate it (exiting with the missing names when any is
unset or empty), build the client and the authorization URL, open the
browser, block on `get_oauth_code`, raise when the obtained code is falsy,
and finally exchange the code (`exchangeOk` injects whether
`reddit.auth.authorize` succeeds).  The result is the ordered list of
steps performed and the outcome. -/
def setup_reddit (env : String → Option String) (requests : List String)
    (writeOk : Bool) (exchangeOk : Bool) : List SetupStep × SetupOutcome :=
  match validate_env_vars env with
  | .exitWith c missing => ([.loadDotenv, .envValidation], .configExit c missing)
  | .ok =>
    let steps := [SetupStep.loadDotenv, .envValidation, .clientInit,
      .buildAuthUrl, .openBrowser, .waitCallback]
    let run := get_oauth_code requests writeOk
    if !pyTruthy run.oauth_code then (steps, .authFailed)
    else if exchangeOk then (steps ++ [.tokenExchange], .ok)
    else (steps ++ [.tokenExchange], .authFailed)

/-! ## `delete_all_posts` and `delete_all_comments`

Each function resolves the user, then iterates the user's items
newest-first (`user.submissions.new(limit=limit)` respectively
`user.comments.new(limit=limit)`).  The loop body prints a description of
the item, calls `delete()`, increments `deleted_count` and sleeps two
seconds; its `except Exception` branch prints the error and continues with
the next item, skipping both the increment and the sleep.  Around the whole
loop, `except KeyboardInterrupt` and `except Exception` both print a
message and fall through to the `return deleted_count`.

An item carries the attributes the loop reads plus a flag saying whether
its `delete()` call raises.  The enumeration is a list of the items the
listing yields, plus how the stream ends: normal exhaustion, an exception
raised while fetching more items, or a Ctrl-C during the loop.  PRAW's
`limit=k` truncates the listing to its first `k` items, in which case no
later stream failure is reached. -/

/-- A post, as consumed by `delete_all_posts`. -/
structure Submission where
  title : String
  created_utc : Nat
  score : Int
  deleteRaises : Bool
  deriving DecidableEq, Repr

/-- A comment, as consumed by `delete_all_comments`. -/
structure Comment where
  body : String
  created_utc : Nat
  score : Int
  deleteRaises : Bool
  deriving DecidableEq, Repr

/-- How the item listing ends after its last yielded item. -/
inductive StreamEnd
  | exhausted
  | enumFailure
  | interrupted
  deriving DecidableEq, Repr

/-- The observable outcome of one deletion scope: the returned
`deleted_count`, the number of `delete()` calls issued (attempts, raising
ones included) and the number of `time.sleep(2)` calls performed. -/
structure DeleteOutcome where
  deleted_count : Nat
  deleteCallsIssued : Nat
  sleepsPerformed : Nat
  deriving DecidableEq, Repr

/-- The preview printed for a comment: the first 100 characters of the
body followed by `...` when the body is longer than 100 characters,
otherwise the body itself (line 190 of the source). -/
def commentPreview (body : String) : String :=
  if body.length > 100 then String.mk (body.data.take 100) ++ "..." else body

/-- Truncation performed by PRAW's `limit` argument: with `limit=k` the
listing yields at most its first `k` items and then stops, so a stream
failure after those items is never reached; with `limit=None` the full
stream is consumed. -/
def enumerateWithLimit (limit : Option Nat) (items : List α) (ending : StreamEnd) :
    List α × StreamEnd :=
  match limit with
  | none => (items, ending)
  | some k => if k < items.length then (items.take k, .exhausted) else (items, ending)

/-- The body of the posts loop over the yielded items: print, `delete()`,
increment, sleep; a raising `delete()` is caught by the inner
`except Exception`, which prints and continues without increment or
sleep. -/
def postsLoop : List Submission → DeleteOutcome
  | [] => { deleted_count := 0, deleteCallsIssued := 0, sleepsPerformed := 0 }
  | s :: rest =>
    let r := postsLoop rest
    if s.deleteRaises then
      { deleted_count := r.deleted_count,
        deleteCallsIssued := r.deleteCallsIssued + 1,
        sleepsPerformed := r.sleepsPerformed }
    else
      { deleted_count := r.deleted_count + 1,
        deleteCallsIssued := r.deleteCallsIssued + 1,
        sleepsPerformed := r.sleepsPerformed + 1 }

/-- The body of the comments loop, identical to `postsLoop` except that it
prints `commentPreview` instead of the title. -/
def commentsLoop : List Comment → DeleteOutcome
  | [] => { deleted_count := 0, deleteCallsIssued := 0, sleepsPerformed := 0 }
  | c :: rest =>
    let r := commentsLoop rest
    if c.deleteRaises then
      { deleted_count := r.deleted_count,
        deleteCallsIssued := r.deleteCallsIssued + 1,
        sleepsPerformed := r.sleepsPerformed }
    else
      { deleted_count := r.deleted_count + 1,
        deleteCallsIssued := r.deleteCallsIssued + 1,
        sleepsPerformed := r.sleepsPerformed + 1 }

/-- `delete_all_posts`, embedding of lines 125-167 of the source.  All
three stream endings return the tally accumulated so far: normal
exhaustion falls out of the loop, `except KeyboardInterrupt` prints
"Deletion interrupted by user." and `except Exception` prints
"Error fetching posts"; none of them re-raises. -/
def delete_all_posts (limit : Option Nat) (items : List Submission)
    (ending : StreamEnd) : DeleteOutcome :=
  let e := enumerateWithLimit limit items ending
  let r := postsLoop e.1
  match e.2 with
  | .exhausted => r
  | .enumFailure => r
  | .interrupted => r

/-- `delete_all_comments`, embedding of lines 169-212 of the source,
structured exactly like `delete_all_posts`. -/
def delete_all_comments (limit : Option Nat) (items : List Comment)
    (ending : StreamEnd) : DeleteOutcome :=
  let e := enumerateWithLimit limit items ending
  let r := commentsLoop e.1
  match e.2 with
  | .exhausted => r
  | .enumFailure => r
  | .interrupted => r

/-! ## The interactive driver `main`

`main` wraps everything in `try ... except Exception`: an `Exception`
prints the message and calls `sys.exit(1)`.  A `KeyboardInterrupt` is not
an `Exception` in Python, so a Ctrl-C during `setup_reddit`, during the
scope prompt or during the confirmation prompt propagates out of `main`
uncaught.  Only the inner `try` around the two deletions catches
`KeyboardInterrupt`, printing the tallies accumulated so far.  `sys.exit`
raises `SystemExit`, which is also not an `Exception`, so the exit code 1
of `validate_env_vars` passes through.

The input collects the injected external events: the environment, the
incoming callback requests, whether the token exchange succeeds, the two
console inputs, the stage (if any) at which the user presses Ctrl-C, and
the item streams of the two scopes.  `interruptAt = some .deletion` places
the Ctrl-C inside the inner `try` but outside the loops' own handlers
(for example during the `reddit.user.me()` call of the first deleter);
a Ctrl-C caught by a loop itself is instead expressed by that scope's
`StreamEnd.interrupted`. -/

/-- The driver stages at which a `KeyboardInterrupt` can be raised. -/
inductive Stage
  | authorization
  | scopeChoice
  | confirmation
  | deletion
  deriving DecidableEq, Repr

/-- How the process leaves `main`. -/
inductive ExitKind
  | normalReturn
  | sysExit (code : Nat)
  | uncaughtInterrupt
  deriving DecidableEq, Repr

/-- The injected external events of one run of `main`. -/
structure MainInput where
  env : String → Option String
  requests : List String
  writeOk : Bool
  exchangeOk : Bool
  choice : String
  confirm : String
  interruptAt : Option Stage
  posts : List Submission
  postsEnd : StreamEnd
  comments : List Comment
  commentsEnd : StreamEnd

/-- The observable outcome of one run of `main`. -/
structure MainResult where
  exit : ExitKind
  postsDeleted : Nat
  commentsDeleted : Nat
  deleteCallsIssued : Nat
  printedInvalidChoice : Bool
  printedCancelled : Bool
  printedSummary : Bool
  printedInterruptedSummary : Bool
  deriving DecidableEq, Repr

/-- The all-zero outcome before anything observable happened. -/
def quietResult (e : ExitKind) : MainResult :=
  { exit := e, postsDeleted := 0, commentsDeleted := 0, deleteCallsIssued := 0,
    printedInvalidChoice := false, printedCancelled := false,
    printedSummary := false, printedInterruptedSummary := false }

/-- `main`, embedding of lines 214-272 of the source. -/
def main (inp : MainInput) : MainResult :=
  if inp.interruptAt = some Stage.authorization then
    quietResult .uncaughtInterrupt
  else
    match (setup_reddit inp.env inp.requests inp.writeOk inp.exchangeOk).2 with
    | .configExit c _ => quietResult (.sysExit c)
    | .authFailed => quietResult (.sysExit 1)
    | .ok =>
      if inp.interruptAt = some Stage.scopeChoice then
        quietResult .uncaughtInterrupt
      else
        let choice := pyStrip inp.choice
        if !(["1", "2", "3"].contains choice) then
          { quietResult .normalReturn with printedInvalidChoice := true }
        else if inp.interruptAt = some Stage.confirmation then
          quietResult .uncaughtInterrupt
        else
          let confirm := pyLower (pyStrip inp.confirm)
          if confirm ≠ "yes" then
            { quietResult .normalReturn with printedCancelled := true }
          else if inp.interruptAt = some Stage.deletion then
            { quietResult .normalReturn with printedInterruptedSummary := true }
          else
            let pr := if choice = "1" ∨ choice = "3" then
                delete_all_posts none inp.posts inp.postsEnd
              else { deleted_count := 0, deleteCallsIssued := 0, sleepsPerformed := 0 }
            let cr := if choice = "2" ∨ choice = "3" then
                delete_all_comments none inp.comments inp.commentsEnd
              else { deleted_count := 0, deleteCallsIssued := 0, sleepsPerformed := 0 }
            { exit := .normalReturn,
              postsDeleted := pr.deleted_count,
              commentsDeleted := cr.deleted_count,
              deleteCallsIssued := pr.deleteCallsIssued + cr.deleteCallsIssued,
              printedInvalidChoice := false,
              printedCancelled := false,
              printedSummary := true,
              printedInterruptedSummary := false }

/-! ## Helper lemmas -/

/-- The posts loop issues one delete call per yielded item; the tally and
the sleep count both equal the number of items whose delete succeeds. -/
theorem postsLoop_counts (l : List Submission) :
    (postsLoop l).deleteCallsIssued = l.length ∧
    (postsLoop l).deleted_count = l.countP (fun s => !s.deleteRaises) ∧
    (postsLoop l).sleepsPerformed = l.countP (fun s => !s.deleteRaises) := by
  induction l with
  | nil => simp [postsLoop]
  | cons s rest ih =>
    by_cases h : s.deleteRaises <;>
      simp [postsLoop, h, List.countP_cons, ih.1, ih.2.1, ih.2.2]

/-- The comments loop issues one delete call per yielded item; the tally
and the sleep count both equal the number of items whose delete
succeeds. -/
theorem commentsLoop_counts (l : List Comment) :
    (commentsLoop l).deleteCallsIssued = l.length ∧
    (commentsLoop l).deleted_count = l.countP (fun c => !c.deleteRaises) ∧
    (commentsLoop l).sleepsPerformed = l.countP (fun c => !c.deleteRaises) := by
  induction l with
  | nil => simp [commentsLoop]
  | cons c rest ih =>
    by_cases h : c.deleteRaises <;>
      simp [commentsLoop, h, List.countP_cons, ih.1, ih.2.1, ih.2.2]

/-- Counting a predicate and its negation partitions a list. -/
theorem countP_not_add_countP (p : α → Bool) (l : List α) :
    l.countP (fun a => !p a) + l.countP p = l.length := by
  induction l with
  | nil => simp
  | cons a l ih => by_cases h : p a <;> simp [List.countP_cons, h] <;> omega

/-- The outcome of `delete_all_posts` is the loop over the items the
limited enumeration yields, however the stream ends. -/
theorem delete_all_posts_eq (limit : Option Nat) (items : List Submission)
    (ending : StreamEnd) :
    delete_all_posts limit items ending =
      postsLoop (enumerateWithLimit limit items ending).1 := by
  simp only [delete_all_posts]
  split <;> rfl

/-- The outcome of `delete_all_comments` is the loop over the items the
limited enumeration yields, however the stream ends. -/
theorem delete_all_comments_eq (limit : Option Nat) (items : List Comment)
    (ending : StreamEnd) :
    delete_all_comments limit items ending =
      commentsLoop (enumerateWithLimit limit items ending).1 := by
  simp only [delete_all_comments]
  split <;> rfl

/-- With no limit the enumeration yields the full stream. -/
theorem enumerateWithLimit_none (items : List α) (ending : StreamEnd) :
    enumerateWithLimit none items ending = (items, ending) := rfl

/-- With no limit, `delete_all_posts` is the loop over the full stream. -/
theorem delete_all_posts_none (items : List Submission) (ending : StreamEnd) :
    delete_all_posts none items ending = postsLoop items := by
  rw [delete_all_posts_eq]; rfl

/-- With no limit, `delete_all_comments` is the loop over the full
stream. -/
theorem delete_all_comments_none (items : List Comment) (ending : StreamEnd) :
    delete_all_comments none items ending = commentsLoop items := by
  rw [delete_all_comments_eq]; rfl

/-! ## Claims -/

/-- C1: for every finite item sequence enumerated by `delete_all_posts` or
`delete_all_comments` in which exactly one item's delete raises and all
others succeed, the returned tally is `n - 1`, a delete call is issued for
every one of the `n` items, and the per-item failure does not abort the
loop. -/
theorem single_failure_continues_and_tallies
    (posts : List Submission) (comments : List Comment)
    (hp : posts.countP (fun s => s.deleteRaises) = 1)
    (hc : comments.countP (fun c => c.deleteRaises) = 1) :
    (delete_all_posts none posts .exhausted).deleted_count = posts.length - 1 ∧
    (delete_all_posts none posts .exhausted).deleteCallsIssued = posts.length ∧
    (delete_all_comments none comments .exhausted).deleted_count = comments.length - 1 ∧
    (delete_all_comments none comments .exhausted).deleteCallsIssued = comments.length := by
  have hps := postsLoop_counts posts
  have hcs := commentsLoop_counts comments
  have h1 := countP_not_add_countP (fun s => s.deleteRaises) posts
  have h2 := countP_not_add_countP (fun c => c.deleteRaises) comments
  rw [delete_all_posts_none, delete_all_comments_none]
  refine ⟨?_, hps.1, ?_, hcs.1⟩ <;> omega

/-- C1 witness: three posts with the middle delete raising give tally 2
and three delete calls; one comment whose delete raises gives tally 0 and
one delete call. -/
theorem single_failure_continues_and_tallies_witness :
    ([⟨"a", 0, 1, false⟩, ⟨"b", 1, 2, true⟩, ⟨"c", 2, 3, false⟩] :
        List Submission).countP (fun s => s.deleteRaises) = 1 ∧
    ([⟨"x", 0, 1, true⟩] : List Comment).countP (fun c => c.deleteRaises) = 1 ∧
    ((delete_all_posts none [⟨"a", 0, 1, false⟩, ⟨"b", 1, 2, true⟩, ⟨"c", 2, 3, false⟩]
        .exhausted).deleted_count = 3 - 1 ∧
      (delete_all_posts none [⟨"a", 0, 1, false⟩, ⟨"b", 1, 2, true⟩, ⟨"c", 2, 3, false⟩]
        .exhausted).deleteCallsIssued = 3 ∧
      (delete_all_comments none [⟨"x", 0, 1, true⟩] .exhausted).deleted_count = 1 - 1 ∧
      (delete_all_comments none [⟨"x", 0, 1, true⟩] .exhausted).deleteCallsIssued = 1) := by
  refine ⟨by decide, by decide, ?_⟩
  have h := single_failure_continues_and_tallies
    [⟨"a", 0, 1, false⟩, ⟨"b", 1, 2, true⟩, ⟨"c", 2, 3, false⟩]
    [⟨"x", 0, 1, true⟩] (by decide) (by decide)
  simpa using h

/-- C4 counterexample: a single post whose delete raises receives a delete
attempt but no sleep, so no fixed sleep follows a failed delete attempt. -/
theorem sleep_skipped_on_failed_delete :
    (delete_all_posts none
        [{ title := "t", created_utc := 0, score := 0, deleteRaises := true }]
        .exhausted).deleteCallsIssued = 1 ∧
    (delete_all_posts none
        [{ title := "t", created_utc := 0, score := 0, deleteRaises := true }]
        .exhausted).sleepsPerformed = 0 := by decide

/-- C4 amended: in both deleters the fixed 2-second sleep is performed
after each successful delete only; when a delete raises, the handler
continues to the next item without sleeping, so the sleeps performed equal
the successful deletes, not the attempts. -/
theorem sleeps_match_successful_deletes (limit : Option Nat)
    (posts : List Submission) (pe : StreamEnd)
    (comments : List Comment) (ce : StreamEnd) :
    (delete_all_posts limit posts pe).sleepsPerformed =
      (delete_all_posts limit posts pe).deleted_count ∧
    (delete_all_comments limit comments ce).sleepsPerformed =
      (delete_all_comments limit comments ce).deleted_count := by
  rw [delete_all_posts_eq, delete_all_comments_eq]
  exact ⟨((postsLoop_counts _).2.2).trans ((postsLoop_counts _).2.1).symm,
    ((commentsLoop_counts _).2.2).trans ((commentsLoop_counts _).2.1).symm⟩

/-- C7: with a maximum count `k` smaller than the stream length, each
deleter issues at most `k` delete calls and returns a tally of at most
`k`. -/
theorem limit_caps_delete_calls (k : Nat)
    (posts : List Submission) (pe : StreamEnd)
    (comments : List Comment) (ce : StreamEnd)
    (hp : k < posts.length) (hc : k < comments.length) :
    (delete_all_posts (some k) posts pe).deleteCallsIssued ≤ k ∧
    (delete_all_posts (some k) posts pe).deleted_count ≤ k ∧
    (delete_all_comments (some k) comments ce).deleteCallsIssued ≤ k ∧
    (delete_all_comments (some k) comments ce).deleted_count ≤ k := by
  rw [delete_all_posts_eq, delete_all_comments_eq]
  simp only [enumerateWithLimit, if_pos hp, if_pos hc]
  have hps := postsLoop_counts (posts.take k)
  have hcs := commentsLoop_counts (comments.take k)
  have hl1 : (posts.take k).length ≤ k := by
    simp [List.length_take]
  have hl2 : (comments.take k).length ≤ k := by
    simp [List.length_take]
  have hc1 := List.countP_le_length (l := posts.take k) (p := fun s => !s.deleteRaises)
  have hc2 := List.countP_le_length (l := comments.take k) (p := fun c => !c.deleteRaises)
  omega

/-- C7 witness: limit 1 on two-item streams issues at most one call and
tallies at most one in each scope. -/
theorem limit_caps_delete_calls_witness :
    1 < ([⟨"a", 0, 1, false⟩, ⟨"b", 1, 2, false⟩] : List Submission).length ∧
    1 < ([⟨"x", 0, 1, false⟩, ⟨"y", 1, 2, false⟩] : List Comment).length ∧
    ((delete_all_posts (some 1) [⟨"a", 0, 1, false⟩, ⟨"b", 1, 2, false⟩]
        .exhausted).deleteCallsIssued ≤ 1 ∧
      (delete_all_posts (some 1) [⟨"a", 0, 1, false⟩, ⟨"b", 1, 2, false⟩]
        .exhausted).deleted_count ≤ 1 ∧
      (delete_all_comments (some 1) [⟨"x", 0, 1, false⟩, ⟨"y", 1, 2, false⟩]
        .exhausted).deleteCallsIssued ≤ 1 ∧
      (delete_all_comments (some 1) [⟨"x", 0, 1, false⟩, ⟨"y", 1, 2, false⟩]
        .exhausted).deleted_count ≤ 1) :=
  ⟨by decide, by decide,
    limit_caps_delete_calls 1
      [⟨"a", 0, 1, false⟩, ⟨"b", 1, 2, false⟩]
      .exhausted
      [⟨"x", 0, 1, false⟩, ⟨"y", 1, 2, false⟩]
      .exhausted (by decide) (by decide)⟩

/-- C8: when the enumeration of a scope fails mid-stream or the user
interrupts the loop, the deleter stops early and returns (rather than
raising) the tally of the deletes that succeeded among the items yielded
up to that point. -/
theorem stream_failure_returns_partial_tally
    (posts : List Submission) (pe : StreamEnd)
    (comments : List Comment) (ce : StreamEnd)
    (hp : pe = .enumFailure ∨ pe = .interrupted)
    (hc : ce = .enumFailure ∨ ce = .interrupted) :
    (delete_all_posts none posts pe).deleted_count =
      posts.countP (fun s => !s.deleteRaises) ∧
    (delete_all_comments none comments ce).deleted_count =
      comments.countP (fun c => !c.deleteRaises) := by
  rw [delete_all_posts_none, delete_all_comments_none]
  exact ⟨(postsLoop_counts posts).2.1, (commentsLoop_counts comments).2.1⟩

/-- C8 witness: a post scope ending in an enumeration failure after one
successful and one failing delete returns tally 1; a comment scope
interrupted after one successful delete returns tally 1. -/
theorem stream_failure_returns_partial_tally_witness :
    (StreamEnd.enumFailure = StreamEnd.enumFailure ∨
      StreamEnd.enumFailure = StreamEnd.interrupted) ∧
    (StreamEnd.interrupted = StreamEnd.enumFailure ∨
      StreamEnd.interrupted = StreamEnd.interrupted) ∧
    ((delete_all_posts none [⟨"a", 0, 1, false⟩, ⟨"b", 1, 2, true⟩]
        .enumFailure).deleted_count =
      ([⟨"a", 0, 1, false⟩, ⟨"b", 1, 2, true⟩] : List Submission).countP
        (fun s => !s.deleteRaises) ∧
      (delete_all_comments none [⟨"x", 0, 1, false⟩] .interrupted).deleted_count =
        ([⟨"x", 0, 1, false⟩] : List Comment).countP (fun c => !c.deleteRaises)) :=
  ⟨Or.inl rfl, Or.inr rfl,
    stream_failure_returns_partial_tally
      [⟨"a", 0, 1, false⟩, ⟨"b", 1, 2, true⟩] .enumFailure
      [⟨"x", 0, 1, false⟩] .interrupted (Or.inl rfl) (Or.inr rfl)⟩

/-- C10: `do_GET` sends status 200 before examining the query string, so
the success page, the failure page and the error response are all served
with status 200; no response path produces another status. -/
theorem every_response_has_status_200 (path : String) (writeOk : Bool) :
    (do_GET path writeOk).status = 200 := by
  unfold do_GET
  split <;> rfl

/-- C2: running with exactly the (nonempty) subset `S` of the three
required environment variables unset, and the others set to nonempty
values, `setup_reddit` reports a list of missing names containing exactly
the names in `S`, exits with the non-zero status 1, and performs no
outbound network step before that exit. -/
theorem missing_env_subset_reported (env : String → Option String)
    (requests : List String) (writeOk exchangeOk : Bool) (S : List String)
    (hsub : S ⊆ required_vars) (hne : S ≠ [])
    (hunset : ∀ v ∈ required_vars, (v ∈ S ↔ env v = none))
    (hset : ∀ v ∈ required_vars, v ∉ S → pyTruthy (env v) = true) :
    (∀ v, v ∈ missing_vars env ↔ v ∈ S) ∧
    (setup_reddit env requests writeOk exchangeOk).2 =
      .configExit 1 (missing_vars env) ∧
    (setup_reddit env requests writeOk exchangeOk).1 =
      [SetupStep.loadDotenv, SetupStep.envValidation] ∧
    ((setup_reddit env requests writeOk exchangeOk).1.filter isNetworkStep) = [] := by
  have hmem : ∀ v, v ∈ missing_vars env ↔ v ∈ S := by
    intro v
    unfold missing_vars
    rw [List.mem_filter]
    constructor
    · rintro ⟨hreq, hfalse⟩
      by_contra hvS
      rw [hset v hreq hvS] at hfalse
      exact absurd hfalse (by decide)
    · intro hvS
      have hreq := hsub hvS
      refine ⟨hreq, ?_⟩
      rw [(hunset v hreq).mp hvS]
      rfl
  have hmne : missing_vars env ≠ [] := by
    obtain ⟨v, hv⟩ := List.exists_mem_of_ne_nil S hne
    exact List.ne_nil_of_mem ((hmem v).mpr hv)
  have hval : validate_env_vars env = .exitWith 1 (missing_vars env) := by
    unfold validate_env_vars
    rw [if_neg hmne]
  refine ⟨hmem, ?_, ?_, ?_⟩ <;> simp [setup_reddit, hval, isNetworkStep]

/-- C2 witness: with only `REDDIT_CLIENT_ID` unset and the other two
variables bound to a nonempty value, exactly `REDDIT_CLIENT_ID` is
reported missing, the run exits with status 1, and the performed steps
contain no network step. -/
theorem missing_env_subset_reported_witness :
    (∀ v, v ∈ missing_vars
        (fun v => if v = "REDDIT_CLIENT_ID" then none else some "x") ↔
      v ∈ ["REDDIT_CLIENT_ID"]) ∧
    (setup_reddit (fun v => if v = "REDDIT_CLIENT_ID" then none else some "x")
        [] true true).2 =
      .configExit 1 (missing_vars
        (fun v => if v = "REDDIT_CLIENT_ID" then none else some "x")) ∧
    (setup_reddit (fun v => if v = "REDDIT_CLIENT_ID" then none else some "x")
        [] true true).1 = [SetupStep.loadDotenv, SetupStep.envValidation] ∧
    ((setup_reddit (fun v => if v = "REDDIT_CLIENT_ID" then none else some "x")
        [] true true).1.filter isNetworkStep) = [] :=
  missing_env_subset_reported
    (fun v => if v = "REDDIT_CLIENT_ID" then none else some "x") [] true true
    ["REDDIT_CLIENT_ID"] (by decide) (by decide) (by decide) (by decide)

/-- C9: a required environment variable bound to the empty string is
treated like an unset one: it appears in the reported missing names and
`validate_env_vars` exits with the non-zero status 1, because the check
uses the truthiness of the value rather than mere presence. -/
theorem empty_string_env_var_is_missing (env : String → Option String)
    (v : String) (hv : v ∈ required_vars) (he : env v = some "") :
    v ∈ missing_vars env ∧
    validate_env_vars env = .exitWith 1 (missing_vars env) := by
  have hmem : v ∈ missing_vars env := by
    unfold missing_vars
    rw [List.mem_filter]
    exact ⟨hv, by rw [he]; rfl⟩
  refine ⟨hmem, ?_⟩
  unfold validate_env_vars
  rw [if_neg (List.ne_nil_of_mem hmem)]

/-- C9 witness: with `REDDIT_CLIENT_ID` set to the empty string and the
other two variables nonempty, `REDDIT_CLIENT_ID` is reported missing and
validation exits with status 1. -/
theorem empty_string_env_var_is_missing_witness :
    "REDDIT_CLIENT_ID" ∈ missing_vars
      (fun v => if v = "REDDIT_CLIENT_ID" then some "" else some "x") ∧
    validate_env_vars
        (fun v => if v = "REDDIT_CLIENT_ID" then some "" else some "x") =
      .exitWith 1 (missing_vars
        (fun v => if v = "REDDIT_CLIENT_ID" then some "" else some "x")) :=
  empty_string_env_var_is_missing
    (fun v => if v = "REDDIT_CLIENT_ID" then some "" else some "x")
    "REDDIT_CLIENT_ID" (by decide) (by decide)

/-- C3: for every run whose first incoming request carries `ABC123` as the
first `code` value of its query string, the listener stores exactly
`"ABC123"` and serves the success page; for every run whose first request
has no `code` parameter, the stored code stays `none` and the failure page
is served; in both cases exactly one response is sent no matter how many
further requests arrive. -/
theorem callback_single_request_code_handling (path : String)
    (rest : List String) :
    (∀ vs, parse_qs_values (urlQuery path) "code" = "ABC123" :: vs →
      (get_oauth_code (path :: rest) true).oauth_code = some "ABC123" ∧
      (get_oauth_code (path :: rest) true).responsesSent =
        [{ status := 200, oauth_code := some "ABC123", body := .successPage }] ∧
      (get_oauth_code (path :: rest) true).responsesSent.length = 1) ∧
    (parse_qs_values (urlQuery path) "code" = [] →
      (get_oauth_code (path :: rest) true).oauth_code = none ∧
      (get_oauth_code (path :: rest) true).responsesSent =
        [{ status := 200, oauth_code := none, body := .failurePage }] ∧
      (get_oauth_code (path :: rest) true).responsesSent.length = 1) := by
  constructor
  · intro vs h
    simp [get_oauth_code, do_GET, h]
  · intro h
    simp [get_oauth_code, do_GET, h]

/-- C3 witness: the request `/?code=ABC123&state=uniquestate` stores
`"ABC123"` and is answered with the success page even though a second
request is queued; the request `/` stores nothing and is answered with the
failure page; both runs send exactly one response. -/
theorem callback_single_request_code_handling_witness :
    ((get_oauth_code ["/?code=ABC123&state=uniquestate", "/second"] true).oauth_code =
        some "ABC123" ∧
      (get_oauth_code ["/?code=ABC123&state=uniquestate", "/second"] true).responsesSent =
        [{ status := 200, oauth_code := some "ABC123", body := .successPage }] ∧
      (get_oauth_code ["/?code=ABC123&state=uniquestate", "/second"] true).responsesSent.length =
        1) ∧
    ((get_oauth_code ["/"] true).oauth_code = none ∧
      (get_oauth_code ["/"] true).responsesSent =
        [{ status := 200, oauth_code := none, body := .failurePage }] ∧
      (get_oauth_code ["/"] true).responsesSent.length = 1) :=
  ⟨(callback_single_request_code_handling "/?code=ABC123&state=uniquestate"
      ["/second"]).1 [] (by decide),
    (callback_single_request_code_handling "/" []).2 (by decide)⟩

/-- An environment in which all three required variables are set to a
nonempty value. -/
def envAllSet : String → Option String := fun _ => some "x"

/-- A run in which authorization succeeds, the scope choice is `1`, and
the user presses Ctrl-C at the confirmation prompt. -/
def interruptAtConfirmInput : MainInput :=
  { env := envAllSet, requests := ["/?code=ABC123"], writeOk := true,
    exchangeOk := true, choice := "1", confirm := "yes",
    interruptAt := some .confirmation, posts := [], postsEnd := .exhausted,
    comments := [], commentsEnd := .exhausted }

/-- A run in which authorization succeeds, the scope `3` is confirmed with
`yes`, and the user presses Ctrl-C inside the deletion block before any
delete call. -/
def interruptAtDeletionInput : MainInput :=
  { env := envAllSet, requests := ["/?code=ABC123"], writeOk := true,
    exchangeOk := true, choice := "3", confirm := "yes",
    interruptAt := some .deletion, posts := [], postsEnd := .exhausted,
    comments := [], commentsEnd := .exhausted }

/-- C5 counterexample: a Ctrl-C at the confirmation stage is not caught by
the Driver — `KeyboardInterrupt` is not a Python `Exception`, so the outer
handler lets it propagate out of `main` as an unhandled interrupt, and no
tallies are printed. -/
theorem confirmation_interrupt_escapes_driver :
    (main interruptAtConfirmInput).exit = .uncaughtInterrupt ∧
    (main interruptAtConfirmInput).printedInterruptedSummary = false ∧
    (main interruptAtConfirmInput).printedSummary = false := by decide

/-- C5 amended: only a cancellation signal raised during the deletion
stage is caught by the Driver (which then prints the partial tallies and
returns gracefully); a cancellation during authorization, scope choice or
confirmation propagates out of `main` as an unhandled interrupt. -/
theorem interrupt_caught_only_during_deletion (inp : MainInput)
    (hok : (setup_reddit inp.env inp.requests inp.writeOk inp.exchangeOk).2 = .ok)
    (hchoice : (["1", "2", "3"].contains (pyStrip inp.choice)) = true)
    (hconfirm : pyLower (pyStrip inp.confirm) = "yes") :
    (inp.interruptAt = some .authorization →
      (main inp).exit = .uncaughtInterrupt) ∧
    (inp.interruptAt = some .scopeChoice →
      (main inp).exit = .uncaughtInterrupt) ∧
    (inp.interruptAt = some .confirmation →
      (main inp).exit = .uncaughtInterrupt) ∧
    (inp.interruptAt = some .deletion →
      (main inp).exit = .normalReturn ∧
      (main inp).printedInterruptedSummary = true) := by
  have hm : pyStrip inp.choice = "1" ∨ pyStrip inp.choice = "2" ∨
      pyStrip inp.choice = "3" := by simpa using hchoice
  refine ⟨fun h => ?_, fun h => ?_, fun h => ?_, fun h => ?_⟩ <;>
    rcases hm with hm | hm | hm <;>
      simp [main, h, hok, hchoice, hconfirm, hm, quietResult]

/-- C5 amended witness: in the concrete run interrupted inside the
deletion block, the Driver catches the interrupt, prints the partial
tallies and returns gracefully. -/
theorem interrupt_caught_only_during_deletion_witness :
    (interruptAtDeletionInput.interruptAt = some .authorization →
      (main interruptAtDeletionInput).exit = .uncaughtInterrupt) ∧
    (interruptAtDeletionInput.interruptAt = some .scopeChoice →
      (main interruptAtDeletionInput).exit = .uncaughtInterrupt) ∧
    (interruptAtDeletionInput.interruptAt = some .confirmation →
      (main interruptAtDeletionInput).exit = .uncaughtInterrupt) ∧
    (interruptAtDeletionInput.interruptAt = some .deletion →
      (main interruptAtDeletionInput).exit = .normalReturn ∧
      (main interruptAtDeletionInput).printedInterruptedSummary = true) :=
  interrupt_caught_only_during_deletion interruptAtDeletionInput
    (by decide) (by decide) (by decide)

/-- C6: any confirmation input whose stripped, lowercased form differs
from `yes` makes the Driver issue zero delete calls, print the
cancellation message and return normally. -/
theorem non_yes_confirmation_cancels (inp : MainInput)
    (hok : (setup_reddit inp.env inp.requests inp.writeOk inp.exchangeOk).2 = .ok)
    (hni : inp.interruptAt = none)
    (hchoice : (["1", "2", "3"].contains (pyStrip inp.choice)) = true)
    (hconfirm : pyLower (pyStrip inp.confirm) ≠ "yes") :
    (main inp).deleteCallsIssued = 0 ∧
    (main inp).printedCancelled = true ∧
    (main inp).exit = .normalReturn := by
  have hm : pyStrip inp.choice = "1" ∨ pyStrip inp.choice = "2" ∨
      pyStrip inp.choice = "3" := by simpa using hchoice
  rcases hm with hm | hm | hm <;>
    simp [main, hok, hni, hchoice, hconfirm, hm, quietResult]

/-- A run in which authorization succeeds, the scope choice is `2`, and
the confirmation answer is `No`. -/
def declinedConfirmInput : MainInput :=
  { env := envAllSet, requests := ["/?code=ABC123"], writeOk := true,
    exchangeOk := true, choice := "2", confirm := " No ",
    interruptAt := none,
    posts := [{ title := "a", created_utc := 0, score := 1, deleteRaises := false }],
    postsEnd := .exhausted,
    comments := [{ body := "x", created_utc := 0, score := 1, deleteRaises := false }],
    commentsEnd := .exhausted }

/-- C6 witness: answering ` No ` at the confirmation prompt issues zero
delete calls, prints the cancellation message and returns normally. -/
theorem non_yes_confirmation_cancels_witness :
    (main declinedConfirmInput).deleteCallsIssued = 0 ∧
    (main declinedConfirmInput).printedCancelled = true ∧
    (main declinedConfirmInput).exit = .normalReturn :=
  non_yes_confirmation_cancels declinedConfirmInput
    (by decide) (by decide) (by decide) (by decide)

end RedditContentRemover
